import Mathlib

/-!
Verification of the credential registration / verification subsystem of the
Movie_Review_Project repository, embedded shallowly from
`src/backend/routes/auth.js` (the `POST /signup`, `POST /signin` and
`POST /signout` route handlers).

External collaborators of the handlers — the `express-validator` checks, the
bcrypt hasher, the jsonwebtoken signer and the Mongoose `User` model — are
modelled as explicit parameters (`Env`) or, where the repository file is not
among the sources (`../models/User`), from the spec.
-/

namespace MovieReview

/-- A request body as the auth routes receive it. A field absent from the
JSON body is `none` (JavaScript `undefined`). -/
structure Req where
  fullName : Option String
  username : Option String
  email : Option String
  password : Option String
deriving Repr, DecidableEq

/-- Modelled from the spec: the stored user record owned by the
CredentialStore (`../models/User` is not among the sources; spec §3).
After signup the `password` field holds the bcrypt digest. -/
structure User where
  id : String
  fullName : String
  username : String
  email : String
  password : String
deriving Repr, DecidableEq

/-- Modelled from the spec: the credential store is the collection of
stored user records. -/
abbrev Store := List User

/-- `User.findOne({ email })`: the stored user with this email, if any. -/
def findOne (s : Store) (email : String) : Option User :=
  s.find? (fun u => u.email == email)

/-- Modelled from the spec: `create(User) -> User | DuplicateKeyError`;
email uniqueness is a storage-layer invariant (spec §3), so `user.save()`
fails exactly when a record with the same email is already stored. -/
def saveUser (s : Store) (u : User) : Except Unit Store :=
  match findOne s u.email with
  | some _ => .error ()
  | none => .ok (s ++ [u])

/-- One entry of `validationResult(req).array()`: the offending field
(`path`) and the message configured on its `check`. -/
structure ValidationError where
  path : String
  msg : String
deriving Repr, DecidableEq

/-- express-validator hands string validators the field value, coercing a
missing (`undefined`) field to the empty string. -/
def fieldVal (v : Option String) : String := v.getD ""

/-- The signup validation chain (auth.js lines 22–27):
`check('fullName').not().isEmpty()`, `check('username').not().isEmpty()`,
`check('email').isEmail()`, `check('password').isLength({ min: 6 })`.
`iE` is the external validator library's email check. Note that
`.not().isEmpty()` performs no trimming. -/
def validateSignup (iE : String → Bool) (r : Req) : List ValidationError :=
  (if fieldVal r.fullName = "" then [⟨"fullName", "Full name is required"⟩] else [])
  ++ (if fieldVal r.username = "" then [⟨"username", "Username is required"⟩] else [])
  ++ (if iE (fieldVal r.email) then [] else [⟨"email", "Please include a valid email"⟩])
  ++ (if 6 ≤ (fieldVal r.password).length then []
      else [⟨"password", "Please enter a password with 6 or more characters"⟩])

/-- The signin validation chain (auth.js lines 92–96):
`check('email').isEmail()`, `check('password').exists()`. The second check
only requires presence of the field. -/
def validateSignin (iE : String → Bool) (r : Req) : List ValidationError :=
  (if iE (fieldVal r.email) then [] else [⟨"email", "Please include a valid email"⟩])
  ++ (if r.password.isSome then [] else [⟨"password", "Password is required"⟩])

/-- The signed session token, as produced by
`jwt.sign({user:{id}}, secret, {expiresIn:'24h'})`: payload user id,
expiry instant, and the secret it was signed with. -/
structure SignedToken where
  userId : String
  exp : Nat
  secret : String
deriving Repr, DecidableEq

/-- jsonwebtoken `jwt.sign` as the handlers call it: fails when the
configured secret is absent (this configuration failure is delivered
synchronously, so the callback's `throw err` lands in the handler's catch
block); otherwise yields a token carrying the user id, an expiry 24 hours
from issuance, and the secret. -/
def jwtSign (userId : String) (secret : Option String) (now : Nat) :
    Except Unit SignedToken :=
  match secret with
  | none => .error ()
  | some s => .ok ⟨userId, now + 24 * 60 * 60, s⟩

/-- The response body variants the auth routes produce. -/
inductive Body where
  | verrors (es : List ValidationError)
  | errMsg (m : String)
  | tokenBody (t : SignedToken)
  | text (s : String)
  | msgBody (m : String)
deriving Repr, DecidableEq

/-- An HTTP response: status, body, an optional `res.cookie` call
(name, value, httpOnly, secure) and an optional `res.clearCookie` call. -/
structure Resp where
  status : Nat
  body : Body
  cookie : Option (String × SignedToken × Bool × Bool)
  clearedCookie : Option String
deriving Repr, DecidableEq

/-- The side effects a handler run performs, in order. -/
inductive Effect where
  | findOne (email : String)
  | genSalt (rounds : Nat)
  | bhash (password salt : String)
  | save (u : User)
  | jsign (userId : String) (secret : Option String) (expiresIn : String)
  | bcompare (password digest : String)
deriving Repr, DecidableEq

def Effect.isSave : Effect → Bool
  | .save _ => true
  | _ => false

def Effect.isSign : Effect → Bool
  | .jsign _ _ _ => true
  | _ => false

/-- The external collaborators and configuration a handler run consumes:
the JWT secret (`process.env.JWT_SECRET`), the production flag
(`process.env.NODE_ENV === 'production'`), the current time, the email
validator, `bcrypt.hash` and `bcrypt.compare`, the salt produced by
`bcrypt.genSalt(10)` for this run, and the id Mongoose assigns the new
document. -/
structure Env where
  jwtSecret : Option String
  production : Bool
  now : Nat
  isEmail : String → Bool
  bhash : String → String → String
  bcompare : String → String → Bool
  salt : String
  newId : String

/-- The `POST /signup` handler (auth.js lines 19–83). `s₀` is the store at
`findOne` time and `s₁` the store at `save` time: in a sequential run
`s₁ = s₀`, while a concurrent signup committing between the duplicate
pre-check and `save` makes them differ. Returns the response, the effect
trace, and the resulting store. -/
def signup (env : Env) (r : Req) (s₀ s₁ : Store) : Resp × List Effect × Store :=
  let errs := validateSignup env.isEmail r
  if errs.isEmpty then
    let email := fieldVal r.email
    let password := fieldVal r.password
    match findOne s₀ email with
    | some _ =>
        (⟨400, .errMsg "User already exists", none, none⟩, [.findOne email], s₁)
    | none =>
        let digest := env.bhash password env.salt
        let u : User := ⟨env.newId, fieldVal r.fullName, fieldVal r.username, email, digest⟩
        let eff := [Effect.findOne email, .genSalt 10, .bhash password env.salt, .save u]
        match saveUser s₁ u with
        | .error _ =>
            -- `user.save()` threw; the catch block answers 500 'Server error'.
            (⟨500, .text "Server error", none, none⟩, eff, s₁)
        | .ok s₂ =>
            match jwtSign u.id env.jwtSecret env.now with
            | .error _ =>
                -- the callback rethrow reaches the catch block: 500.
                (⟨500, .text "Server error", none, none⟩,
                 eff ++ [.jsign u.id env.jwtSecret "24h"], s₂)
            | .ok t =>
                (⟨200, .tokenBody t, some ("token", t, true, env.production), none⟩,
                 eff ++ [.jsign u.id env.jwtSecret "24h"], s₂)
  else (⟨400, .verrors errs, none, none⟩, [], s₀)

/-- The `POST /signin` handler (auth.js lines 90–143). Returns the
response, the effect trace, and the resulting store. -/
def signin (env : Env) (r : Req) (s : Store) : Resp × List Effect × Store :=
  let errs := validateSignin env.isEmail r
  if errs.isEmpty then
    let email := fieldVal r.email
    let password := fieldVal r.password
    match findOne s email with
    | none =>
        (⟨400, .errMsg "Invalid Credentials", none, none⟩, [.findOne email], s)
    | some u =>
        if env.bcompare password u.password then
          match jwtSign u.id env.jwtSecret env.now with
          | .error _ =>
              (⟨500, .text "Server error", none, none⟩,
               [.findOne email, .bcompare password u.password,
                .jsign u.id env.jwtSecret "24h"], s)
          | .ok t =>
              (⟨200, .tokenBody t, some ("token", t, true, env.production), none⟩,
               [.findOne email, .bcompare password u.password,
                .jsign u.id env.jwtSecret "24h"], s)
        else
          (⟨400, .errMsg "Invalid Credentials", none, none⟩,
           [.findOne email, .bcompare password u.password], s)
  else (⟨400, .verrors errs, none, none⟩, [], s)

/-- The `POST /signout` handler (auth.js lines 150–154): clears the
`token` cookie and answers 200 regardless of the request. -/
def signout (_ : Req) : Resp :=
  ⟨200, .msgBody "Signed out successfully", none, some "token"⟩

/-! Concrete instantiations of the external collaborators, used to
evaluate the model on concrete inputs. -/

/-- Concrete stand-in for the validator library's email check. -/
def emailOkC (e : String) : Bool := e.toList.contains '@'

/-- Concrete stand-in for `bcrypt.hash`. -/
def bhashC (p s : String) : String := s ++ "#" ++ p

/-- A concrete environment: secret configured, non-production. -/
def envC : Env :=
  { jwtSecret := some "shhh", production := false, now := 1000,
    isEmail := emailOkC, bhash := bhashC,
    bcompare := fun p d => d == bhashC p "s1",
    salt := "s1", newId := "id1" }

/-- The spec §8 example signup request. -/
def reqAnn : Req :=
  ⟨some "Ann Lee", some "annlee", some "ann@example.com", some "secret1"⟩

/-- The user record the example signup stores. -/
def uAnn : User :=
  ⟨"id0", "Ann Lee", "annlee", "ann@example.com", bhashC "secret1" "s1"⟩

/-- C1: a signin whose email matches no stored user and a signin whose email
matches a stored user but whose password fails hash verification produce the
identical response: status 400 with the single message 'Invalid Credentials',
so a caller cannot distinguish the two causes. -/
theorem signin_invalid_credentials_indistinguishable
    (env : Env) (r₁ r₂ : Req) (s : Store) (u : User)
    (h₁ : validateSignin env.isEmail r₁ = [])
    (h₂ : findOne s (fieldVal r₁.email) = none)
    (h₃ : validateSignin env.isEmail r₂ = [])
    (h₄ : findOne s (fieldVal r₂.email) = some u)
    (h₅ : env.bcompare (fieldVal r₂.password) u.password = false) :
    (signin env r₁ s).1 = ⟨400, .errMsg "Invalid Credentials", none, none⟩ ∧
    (signin env r₂ s).1 = ⟨400, .errMsg "Invalid Credentials", none, none⟩ := by
  constructor
  · simp [signin, h₁, h₂]
  · simp [signin, h₃, h₄, h₅]

/-- C1 witness: unknown email versus wrong password for the stored example
user, both answered by 400 'Invalid Credentials'. -/
theorem signin_invalid_credentials_indistinguishable_witness :
    (signin envC ⟨none, none, some "bob@x.com", some "pw"⟩ [uAnn]).1
      = ⟨400, .errMsg "Invalid Credentials", none, none⟩ ∧
    (signin envC ⟨none, none, some "ann@example.com", some "wrongpw"⟩ [uAnn]).1
      = ⟨400, .errMsg "Invalid Credentials", none, none⟩ :=
  signin_invalid_credentials_indistinguishable envC
    ⟨none, none, some "bob@x.com", some "pw"⟩
    ⟨none, none, some "ann@example.com", some "wrongpw"⟩ [uAnn] uAnn
    (by decide) (by decide) (by decide) (by decide) (by decide)

/-- C2: when validation of a signup or signin request yields a non-empty
error list, the handler answers 400 with the accumulated errors and performs
no side effect: the effect trace is empty (no store lookup, no store write,
no hashing) and the store is unchanged. -/
theorem validation_failure_no_side_effects
    (env : Env) (r : Req) (s₀ s₁ s : Store) :
    (validateSignup env.isEmail r ≠ [] →
      signup env r s₀ s₁ =
        (⟨400, .verrors (validateSignup env.isEmail r), none, none⟩, [], s₀)) ∧
    (validateSignin env.isEmail r ≠ [] →
      signin env r s =
        (⟨400, .verrors (validateSignin env.isEmail r), none, none⟩, [], s)) := by
  constructor
  · intro h
    simp [signup, List.isEmpty_iff, h]
  · intro h
    simp [signin, List.isEmpty_iff, h]

/-- C2 witness: the empty request violates both validation chains and both
handlers answer 400 with the error lists, an empty effect trace and an
unchanged store. -/
theorem validation_failure_no_side_effects_witness :
    signup envC ⟨none, none, none, none⟩ [uAnn] [uAnn] =
      (⟨400, .verrors (validateSignup envC.isEmail ⟨none, none, none, none⟩),
        none, none⟩, [], [uAnn]) ∧
    signin envC ⟨none, none, none, none⟩ [uAnn] =
      (⟨400, .verrors (validateSignin envC.isEmail ⟨none, none, none, none⟩),
        none, none⟩, [], [uAnn]) :=
  ⟨(validation_failure_no_side_effects envC ⟨none, none, none, none⟩
      [uAnn] [uAnn] [uAnn]).1 (by decide),
   (validation_failure_no_side_effects envC ⟨none, none, none, none⟩
      [uAnn] [uAnn] [uAnn]).2 (by decide)⟩

/-- C3 counterexample: a concurrent signup commits `uAnn` between the
duplicate pre-check (run on the empty store) and `save` (run on `[uAnn]`);
the handler then answers 500 'Server error' — not the 400 'User already
exists' the claim states — because the catch block flattens the store
conflict into the generic server error. -/
theorem signup_race_conflict_counterexample :
    (signup envC reqAnn [] [uAnn]).1 = ⟨500, .text "Server error", none, none⟩ ∧
    (signup envC reqAnn [] [uAnn]).1.status ≠ 400 := by
  constructor
  · rfl
  · decide

/-- C3 amended: when a signup passes validation and the duplicate pre-check
but the create step hits a store uniqueness conflict, the handler answers
with the generic 500 'Server error' response (the catch-all flattens the
conflict; it is not translated into the 400 DuplicateUserError of the
pre-check path); no new user is created and the store is unchanged. -/
theorem signup_race_conflict_500
    (env : Env) (r : Req) (s₀ s₁ : Store) (u : User)
    (h₁ : validateSignup env.isEmail r = [])
    (h₂ : findOne s₀ (fieldVal r.email) = none)
    (h₃ : findOne s₁ (fieldVal r.email) = some u) :
    (signup env r s₀ s₁).1 = ⟨500, .text "Server error", none, none⟩ ∧
    (signup env r s₀ s₁).2.2 = s₁ := by
  constructor <;> simp [signup, saveUser, h₁, h₂, h₃]

/-- C3 amended witness: the race at a concrete input. -/
theorem signup_race_conflict_500_witness :
    (signup envC reqAnn [] [uAnn]).1 = ⟨500, .text "Server error", none, none⟩ ∧
    (signup envC reqAnn [] [uAnn]).2.2 = [uAnn] :=
  signup_race_conflict_500 envC reqAnn [] [uAnn] uAnn
    (by decide) (by decide) (by decide)

/-- A signup request whose fullName is a single space: non-empty as a
string, but empty after trimming. -/
def reqWS : Req := ⟨some " ", some "bob", some "bob@x.com", some "secret1"⟩

/-- C4 counterexample: `.not().isEmpty()` does not trim, so a
whitespace-only fullName passes signup validation even though it is empty
after trimming — the claim says such a request is rejected. -/
theorem signup_validation_no_trim_counterexample :
    validateSignup emailOkC reqWS = [] ∧
    reqWS.fullName = some " " ∧ (" ").toList.all Char.isWhitespace = true := by
  refine ⟨by decide, rfl, by decide⟩

/-- C4 amended: signup validation rejects exactly the inputs violating
these rules: fullName and username must be non-empty exactly as submitted
(no trimming, so whitespace-only values are accepted), email must pass the
validator library's email check, and password must have length at least 6. -/
theorem signup_validation_characterization (iE : String → Bool) (r : Req) :
    validateSignup iE r = [] ↔
      (fieldVal r.fullName ≠ "" ∧ fieldVal r.username ≠ "" ∧
       iE (fieldVal r.email) = true ∧ 6 ≤ (fieldVal r.password).length) := by
  unfold validateSignup
  split_ifs with hf hu he hp <;> simp_all

/-- C4 amended witness: the characterization at the example request. -/
theorem signup_validation_characterization_witness :
    validateSignup emailOkC reqAnn = [] ↔
      (fieldVal reqAnn.fullName ≠ "" ∧ fieldVal reqAnn.username ≠ "" ∧
       emailOkC (fieldVal reqAnn.email) = true ∧
       6 ≤ (fieldVal reqAnn.password).length) :=
  signup_validation_characterization emailOkC reqAnn

/-- C5: signup validation reports one error per violated rule, all together
and in the fixed field order — the result is a sublist of the canonical
four-error list, its length counts exactly the violated rules, and each
field's error is present precisely when that field's rule is violated. -/
theorem signup_validation_reports_all_violations (iE : String → Bool) (r : Req) :
    List.Sublist (validateSignup iE r)
      [⟨"fullName", "Full name is required"⟩, ⟨"username", "Username is required"⟩,
       ⟨"email", "Please include a valid email"⟩,
       ⟨"password", "Please enter a password with 6 or more characters"⟩] ∧
    (validateSignup iE r).length =
      ((if fieldVal r.fullName = "" then 1 else 0) +
       (if fieldVal r.username = "" then 1 else 0) +
       (if iE (fieldVal r.email) then 0 else 1) +
       (if 6 ≤ (fieldVal r.password).length then 0 else 1)) ∧
    ((⟨"fullName", "Full name is required"⟩ : ValidationError) ∈ validateSignup iE r
        ↔ fieldVal r.fullName = "") ∧
    ((⟨"username", "Username is required"⟩ : ValidationError) ∈ validateSignup iE r
        ↔ fieldVal r.username = "") ∧
    ((⟨"email", "Please include a valid email"⟩ : ValidationError) ∈ validateSignup iE r
        ↔ iE (fieldVal r.email) = false) ∧
    ((⟨"password", "Please enter a password with 6 or more characters"⟩ :
        ValidationError) ∈ validateSignup iE r
        ↔ ¬ 6 ≤ (fieldVal r.password).length) := by
  unfold validateSignup
  split_ifs with hf hu he hp <;> simp_all

/-- C5 witness: a request violating all four rules at once yields the four
errors together, in order. -/
theorem signup_validation_reports_all_violations_witness :
    List.Sublist (validateSignup emailOkC ⟨none, some "", some "nomail", some "pw"⟩)
      [⟨"fullName", "Full name is required"⟩, ⟨"username", "Username is required"⟩,
       ⟨"email", "Please include a valid email"⟩,
       ⟨"password", "Please enter a password with 6 or more characters"⟩] ∧
    (validateSignup emailOkC ⟨none, some "", some "nomail", some "pw"⟩).length =
      ((if fieldVal (none : Option String) = "" then 1 else 0) +
       (if fieldVal (some "" : Option String) = "" then 1 else 0) +
       (if emailOkC (fieldVal (some "nomail" : Option String)) then 0 else 1) +
       (if 6 ≤ (fieldVal (some "pw" : Option String)).length then 0 else 1)) ∧
    ((⟨"fullName", "Full name is required"⟩ : ValidationError)
        ∈ validateSignup emailOkC ⟨none, some "", some "nomail", some "pw"⟩
        ↔ fieldVal (none : Option String) = "") ∧
    ((⟨"username", "Username is required"⟩ : ValidationError)
        ∈ validateSignup emailOkC ⟨none, some "", some "nomail", some "pw"⟩
        ↔ fieldVal (some "" : Option String) = "") ∧
    ((⟨"email", "Please include a valid email"⟩ : ValidationError)
        ∈ validateSignup emailOkC ⟨none, some "", some "nomail", some "pw"⟩
        ↔ emailOkC (fieldVal (some "nomail" : Option String)) = false) ∧
    ((⟨"password", "Please enter a password with 6 or more characters"⟩ :
        ValidationError)
        ∈ validateSignup emailOkC ⟨none, some "", some "nomail", some "pw"⟩
        ↔ ¬ 6 ≤ (fieldVal (some "pw" : Option String)).length) := by
  have h := signup_validation_reports_all_violations emailOkC
    ⟨none, some "", some "nomail", some "pw"⟩
  exact h

/-- C7: signout, whatever the request and whether or not a session cookie is
present, clears the `token` cookie and answers 200 with
{msg: 'Signed out successfully'}; it has no failure path. -/
theorem signout_always_succeeds (r : Req) :
    signout r = ⟨200, .msgBody "Signed out successfully", none, some "token"⟩ :=
  rfl

/-- C7 witness at a concrete request. -/
theorem signout_always_succeeds_witness :
    signout reqAnn = ⟨200, .msgBody "Signed out successfully", none, some "token"⟩ :=
  signout_always_succeeds reqAnn

/-- If no stored user has the email, filtering the store by that email
yields the empty list. -/
theorem filter_email_nil_of_findOne_none (s : Store) (e : String)
    (h : findOne s e = none) :
    s.filter (fun v => v.email == e) = [] := by
  unfold findOne at h
  rw [List.find?_eq_none] at h
  rw [List.filter_eq_nil_iff]
  exact h

/-- C6: a valid signup with a fresh email answers 200 with a token, and
afterward exactly one stored user with that email exists; its stored
password field is not the submitted plaintext, and hash verification of
the submitted password against the stored digest succeeds. The hasher
hypotheses state bcrypt's contract at this input. -/
theorem signup_fresh_email_creates_hashed_user
    (env : Env) (r : Req) (s : Store)
    (h₁ : validateSignup env.isEmail r = [])
    (h₂ : findOne s (fieldVal r.email) = none)
    (h₃ : env.jwtSecret.isSome = true)
    (h₄ : env.bcompare (fieldVal r.password)
            (env.bhash (fieldVal r.password) env.salt) = true)
    (h₅ : env.bhash (fieldVal r.password) env.salt ≠ fieldVal r.password) :
    (signup env r s s).1.status = 200 ∧
    (∃ t, (signup env r s s).1.body = .tokenBody t) ∧
    (∃ u, ((signup env r s s).2.2.filter
        (fun v => v.email == fieldVal r.email)) = [u] ∧
      u.password ≠ fieldVal r.password ∧
      env.bcompare (fieldVal r.password) u.password = true) := by
  obtain ⟨sec, hsec⟩ := Option.isSome_iff_exists.mp h₃
  have hfil := filter_email_nil_of_findOne_none s (fieldVal r.email) h₂
  refine ⟨?_, ?_, ?_⟩
  · simp [signup, saveUser, jwtSign, h₁, h₂, hsec]
  · exact ⟨⟨env.newId, env.now + 24 * 60 * 60, sec⟩,
      by simp [signup, saveUser, jwtSign, h₁, h₂, hsec]⟩
  · refine ⟨⟨env.newId, fieldVal r.fullName, fieldVal r.username, fieldVal r.email,
      env.bhash (fieldVal r.password) env.salt⟩, ?_, h₅, h₄⟩
    simp [signup, saveUser, jwtSign, h₁, h₂, hsec, hfil]

/-- C6 witness: the example signup on the empty store. -/
theorem signup_fresh_email_creates_hashed_user_witness :
    (signup envC reqAnn [] []).1.status = 200 ∧
    (∃ t, (signup envC reqAnn [] []).1.body = .tokenBody t) ∧
    (∃ u, ((signup envC reqAnn [] []).2.2.filter
        (fun v => v.email == fieldVal reqAnn.email)) = [u] ∧
      u.password ≠ fieldVal reqAnn.password ∧
      envC.bcompare (fieldVal reqAnn.password) u.password = true) :=
  signup_fresh_email_creates_hashed_user envC reqAnn []
    (by decide) (by decide) (by decide) (by decide) (by decide)

/-- C8: each successful signup and signin issues a token whose payload
carries the user id, whose expiry is 24 hours after issuance and which is
signed with the configured secret; the same token value is set in the
`token` cookie with httpOnly true and secure equal to the production flag,
and is returned in the response body. -/
theorem token_issuance_shape
    (env : Env) (r₁ r₂ : Req) (s₁ s₂ : Store) (u : User) (sec : String)
    (hsec : env.jwtSecret = some sec)
    (h₁ : validateSignup env.isEmail r₁ = [])
    (h₂ : findOne s₁ (fieldVal r₁.email) = none)
    (h₃ : validateSignin env.isEmail r₂ = [])
    (h₄ : findOne s₂ (fieldVal r₂.email) = some u)
    (h₅ : env.bcompare (fieldVal r₂.password) u.password = true) :
    (∃ t : SignedToken, t.userId = env.newId ∧ t.exp = env.now + 24 * 60 * 60 ∧
       t.secret = sec ∧
       (signup env r₁ s₁ s₁).1.status = 200 ∧
       (signup env r₁ s₁ s₁).1.body = .tokenBody t ∧
       (signup env r₁ s₁ s₁).1.cookie = some ("token", t, true, env.production)) ∧
    (∃ t : SignedToken, t.userId = u.id ∧ t.exp = env.now + 24 * 60 * 60 ∧
       t.secret = sec ∧
       (signin env r₂ s₂).1.status = 200 ∧
       (signin env r₂ s₂).1.body = .tokenBody t ∧
       (signin env r₂ s₂).1.cookie = some ("token", t, true, env.production)) := by
  constructor
  · refine ⟨⟨env.newId, env.now + 24 * 60 * 60, sec⟩, rfl, rfl, rfl, ?_, ?_, ?_⟩ <;>
      simp [signup, saveUser, jwtSign, h₁, h₂, hsec]
  · refine ⟨⟨u.id, env.now + 24 * 60 * 60, sec⟩, rfl, rfl, rfl, ?_, ?_, ?_⟩ <;>
      simp [signin, jwtSign, h₃, h₄, h₅, hsec]

/-- C8 witness: the example signup on the empty store and the example
signin against the stored example user. -/
theorem token_issuance_shape_witness :
    (∃ t : SignedToken, t.userId = envC.newId ∧
       t.exp = envC.now + 24 * 60 * 60 ∧ t.secret = "shhh" ∧
       (signup envC reqAnn [] []).1.status = 200 ∧
       (signup envC reqAnn [] []).1.body = .tokenBody t ∧
       (signup envC reqAnn [] []).1.cookie = some ("token", t, true, envC.production)) ∧
    (∃ t : SignedToken, t.userId = uAnn.id ∧
       t.exp = envC.now + 24 * 60 * 60 ∧ t.secret = "shhh" ∧
       (signin envC ⟨none, none, some "ann@example.com", some "secret1"⟩ [uAnn]).1.status
         = 200 ∧
       (signin envC ⟨none, none, some "ann@example.com", some "secret1"⟩ [uAnn]).1.body
         = .tokenBody t ∧
       (signin envC ⟨none, none, some "ann@example.com", some "secret1"⟩ [uAnn]).1.cookie
         = some ("token", t, true, envC.production)) :=
  token_issuance_shape envC reqAnn ⟨none, none, some "ann@example.com", some "secret1"⟩
    [] [uAnn] uAnn "shhh"
    (by decide) (by decide) (by decide) (by decide) (by decide) (by decide)

/-- The concrete environment with the signing secret missing. -/
def envNoSecret : Env := { envC with jwtSecret := none }

/-- C9: when token signing fails because the configured secret is missing,
a signup or signin that reaches the signing step answers 500 'Server
error', and the effect trace contains exactly one signing attempt — the
handler never retries signing. -/
theorem signing_failure_500_no_retry
    (env : Env) (r₁ r₂ : Req) (s₁ s₂ : Store) (u : User)
    (hsec : env.jwtSecret = none)
    (h₁ : validateSignup env.isEmail r₁ = [])
    (h₂ : findOne s₁ (fieldVal r₁.email) = none)
    (h₃ : validateSignin env.isEmail r₂ = [])
    (h₄ : findOne s₂ (fieldVal r₂.email) = some u)
    (h₅ : env.bcompare (fieldVal r₂.password) u.password = true) :
    (signup env r₁ s₁ s₁).1 = ⟨500, .text "Server error", none, none⟩ ∧
    List.countP (fun e => e.isSign) (signup env r₁ s₁ s₁).2.1 = 1 ∧
    (signin env r₂ s₂).1 = ⟨500, .text "Server error", none, none⟩ ∧
    List.countP (fun e => e.isSign) (signin env r₂ s₂).2.1 = 1 := by
  refine ⟨?_, ?_, ?_, ?_⟩ <;>
    simp [signup, signin, saveUser, jwtSign, Effect.isSign,
      h₁, h₂, h₃, h₄, h₅, hsec]

/-- C9 witness: the secretless environment at the example requests. -/
theorem signing_failure_500_no_retry_witness :
    (signup envNoSecret reqAnn [] []).1 = ⟨500, .text "Server error", none, none⟩ ∧
    List.countP (fun e => e.isSign) (signup envNoSecret reqAnn [] []).2.1 = 1 ∧
    (signin envNoSecret ⟨none, none, some "ann@example.com", some "secret1"⟩ [uAnn]).1
      = ⟨500, .text "Server error", none, none⟩ ∧
    List.countP (fun e => e.isSign)
      (signin envNoSecret ⟨none, none, some "ann@example.com", some "secret1"⟩
        [uAnn]).2.1 = 1 :=
  signing_failure_500_no_retry envNoSecret reqAnn
    ⟨none, none, some "ann@example.com", some "secret1"⟩ [] [uAnn] uAnn
    (by decide) (by decide) (by decide) (by decide) (by decide) (by decide)

/-- C10: for every signin request and every outcome, the store is unchanged
and the effect trace contains no store write: signin only reads. -/
theorem signin_never_writes (env : Env) (r : Req) (s : Store) :
    (signin env r s).2.2 = s ∧
    ∀ e ∈ (signin env r s).2.1, e.isSave = false := by
  unfold signin
  by_cases h : (validateSignin env.isEmail r).isEmpty
  · simp only [h, if_true]
    cases hf : findOne s (fieldVal r.email) with
    | none => simp [Effect.isSave]
    | some u =>
        by_cases hc : env.bcompare (fieldVal r.password) u.password
        · cases hs : jwtSign u.id env.jwtSecret env.now with
          | error e => simp [hc, hs, Effect.isSave]
          | ok t => simp [hc, hs, Effect.isSave]
        · simp [hc, Effect.isSave]
  · simp [h]

/-- C10 witness at a concrete successful signin. -/
theorem signin_never_writes_witness :
    (signin envC ⟨none, none, some "ann@example.com", some "secret1"⟩ [uAnn]).2.2
        = [uAnn] ∧
    ∀ e ∈ (signin envC ⟨none, none, some "ann@example.com", some "secret1"⟩
        [uAnn]).2.1, e.isSave = false :=
  signin_never_writes envC ⟨none, none, some "ann@example.com", some "secret1"⟩ [uAnn]

end MovieReview
